import Mathlib

/-!
Verification of the BoxedValue primitive of the update-engine policy
manager.

The repository ships the unit tests of `BoxedValue`
(`src/policy_manager/boxed_value_unittest.cc`); the class itself
(`boxed_value.h`) and its built-in formatters (`boxed_value.cc`) are not in
the source tree, so they are modelled here from the specification, and the
unit-test scenarios pin the concrete behaviour.

The model is a shallow embedding: the box is a record of an optional
payload together with the destroyer and formatter callbacks captured at
construction; side effects of destruction and of formatting are made
explicit by threading a state `σ` through every operation.
-/

/-- Modelled from the spec: `BoxedValue` (declared in the missing
`boxed_value.h`) holds an opaque payload, or nothing after being moved-from,
together with the destruction callback and the text-rendering callback
captured at construction. Destruction side effects act on an explicit state
`σ`; the formatter may read that state (the `DeleterMarker` test formatter
reads the external marker). -/
structure BoxedValue (α σ : Type) where
  payload : Option α
  destroyer : Option (α → σ → σ)
  formatter : Option (α → σ → String)

/-- Modelled from the spec: construction from an owned value captures the
type-specific destroyer and formatter and stores the payload. -/
def BoxedValue.box {α σ : Type} (p : α) (d : α → σ → σ) (f : α → σ → String) :
    BoxedValue α σ :=
  ⟨some p, some d, some f⟩

/-- Modelled from the spec: the state of a default-constructed or moved-from
box — no payload, no destroyer, no formatter. -/
def BoxedValue.empty {α σ : Type} : BoxedValue α σ :=
  ⟨none, none, none⟩

/-- Modelled from the spec: construction threaded through the side-effect
state — constructing a box performs no destruction side effect. -/
def BoxedValue.boxOp {α σ : Type} (p : α) (d : α → σ → σ)
    (f : α → σ → String) (s : σ) : BoxedValue α σ × σ :=
  (BoxedValue.box p d f, s)

/-- Modelled from the spec: destructor / explicit release — if a payload is
present, invoke `destroyer payload` exactly once and clear the state of the
box; a box without payload is left untouched (safe no-op). -/
def BoxedValue.destroy {α σ : Type} (b : BoxedValue α σ) (s : σ) :
    BoxedValue α σ × σ :=
  match b.payload, b.destroyer with
  | some p, some d => (BoxedValue.empty, d p s)
  | _, _ => (b, s)

/-- Modelled from the spec: move construction transfers payload, destroyer
and formatter to the new box and leaves the source empty; the payload is
not duplicated. Returns (destination, source-after-move). -/
def BoxedValue.moveConstruct {α σ : Type} (b : BoxedValue α σ) :
    BoxedValue α σ × BoxedValue α σ :=
  (⟨b.payload, b.destroyer, b.formatter⟩, BoxedValue.empty)

/-- Modelled from the spec: move assignment first destroys the destination's
previous payload with the destination's own destroyer, then transfers the
three fields from the source, which becomes empty. Returns
(destination, source-after-move, state). -/
def BoxedValue.moveAssign {α σ : Type} (dst src : BoxedValue α σ) (s : σ) :
    BoxedValue α σ × BoxedValue α σ × σ :=
  let cleared := dst.destroy s
  (⟨src.payload, src.destroyer, src.formatter⟩, BoxedValue.empty, cleared.2)

/-- Modelled from the spec: `ToString` invokes the stored formatter against
the stored payload, constructing a fresh string; the box and the state are
untouched. On an empty box no formatter exists and no string is produced. -/
def BoxedValue.toStringOp {α σ : Type} (b : BoxedValue α σ) (s : σ) :
    Option String × BoxedValue α σ × σ :=
  match b.payload, b.formatter with
  | some p, some f => (some (f p s), b, s)
  | _, _ => (none, b, s)

/-- Iterated `ToString`: calls `toStringOp` `n` times, collecting the
produced strings and threading box and state. -/
def BoxedValue.toStringN {α σ : Type} : Nat → BoxedValue α σ → σ →
    List String × BoxedValue α σ × σ
  | 0, b, s => ([], b, s)
  | n + 1, b, s =>
    let first := b.toStringOp s
    let rest := BoxedValue.toStringN n first.2.1 first.2.2
    (first.1.toList ++ rest.1, rest.2.1, rest.2.2)

/-- Modelled from the spec: the raw-payload accessor `value()` exposes the
payload without transferring ownership, and is null exactly when the box is
empty. -/
def BoxedValue.value {α σ : Type} (b : BoxedValue α σ) : Option α :=
  b.payload

/-- The destroyer of the side-effect-counting payload used by the
`Deleted` and `MoveConstructor` tests (`DeleterMarker`): each destruction
bumps the count of observed destruction side effects. -/
def countingDestroyer {α : Type} : α → Nat → Nat :=
  fun _ n => n + 1

/-- The two-step trace of the `Deleted` test: construct a box around a
payload starting from zero observed destructions, then destroy it; the
result records the side-effect count right after construction and the count
after destruction. -/
def singleDestructionTrace {α : Type} (p : α) (d : α → Nat → Nat)
    (f : α → Nat → String) : Nat × Nat :=
  let made := BoxedValue.boxOp p d f 0
  let destroyed := made.1.destroy made.2
  (made.2, destroyed.2)

/-- The character of a single decimal digit (`0 ≤ n ≤ 9` gives '0'..'9'). -/
def digitChar (n : Nat) : Char := Char.ofNat (48 + n)

/-- Modelled from the spec: decimal rendering of an unsigned integer —
repeatedly split off the least significant digit. The first argument is
recursion fuel; `fuel = n + 1` always suffices, as the number of decimal
digits of `n` is at most `n + 1`. -/
def toDecimalAux : Nat → Nat → List Char → List Char
  | 0, _, acc => acc
  | fuel + 1, n, acc =>
    if n < 10 then digitChar n :: acc
    else toDecimalAux fuel (n / 10) (digitChar (n % 10) :: acc)

/-- Modelled from the spec: the integer formatter renders an unsigned value
of any width as plain decimal digits, no sign and no grouping. -/
def uintToString (n : Nat) : String := String.mk (toDecimalAux (n + 1) n [])

/-- One step of decimal parsing: shift the accumulator and add the digit
value of the character. -/
def parseStep (a : Nat) (c : Char) : Nat := 10 * a + (c.toNat - 48)

/-- Reads a string of decimal digits back into the number it denotes; used
to state that the decimal formatter is faithful for every value. -/
def parseDecimal (s : String) : Nat := s.data.foldl parseStep 0

/-- Modelled from the spec: underlying ordinal of `ConnectionType::kEthernet`. -/
def ctEthernet : Nat := 0

/-- Modelled from the spec: underlying ordinal of `ConnectionType::kWifi`. -/
def ctWifi : Nat := 1

/-- Modelled from the spec: underlying ordinal of `ConnectionType::kWimax`. -/
def ctWimax : Nat := 2

/-- Modelled from the spec: underlying ordinal of `ConnectionType::kBluetooth`. -/
def ctBluetooth : Nat := 3

/-- Modelled from the spec: underlying ordinal of `ConnectionType::kCellular`. -/
def ctCellular : Nat := 4

/-- Modelled from the spec: underlying ordinal of `ConnectionType::kUnknown`. -/
def ctUnknown : Nat := 5

/-- Modelled from the spec: the `ConnectionType` formatter maps each known
enumerator (by its underlying ordinal) to its fixed label and every other
value to the fallback label "Unknown". -/
def connectionTypeToString (n : Nat) : String :=
  match n with
  | 0 => "Ethernet"
  | 1 => "Wifi"
  | 2 => "Wimax"
  | 3 => "Bluetooth"
  | 4 => "Cellular"
  | 5 => "Unknown"
  | _ => "Unknown"

/-- Modelled from the spec: the `ConnectionTethering` formatter — ordinals
kNotDetected = 0, kSuspected = 1, kConfirmed = 2, kUnknown = 3 — with the
fallback label "Unknown" for every other value. -/
def connectionTetheringToString (n : Nat) : String :=
  match n with
  | 0 => "Not Detected"
  | 1 => "Suspected"
  | 2 => "Confirmed"
  | 3 => "Unknown"
  | _ => "Unknown"

/-- Modelled from the spec: the `Stage` formatter — ordinals kIdle = 0
through kAttemptingRollback = 8 — with the fallback label "Unknown" for
every other value. -/
def stageToString (n : Nat) : String :=
  match n with
  | 0 => "Idle"
  | 1 => "Checking For Update"
  | 2 => "Update Available"
  | 3 => "Downloading"
  | 4 => "Verifying"
  | 5 => "Finalizing"
  | 6 => "Updated, Need Reboot"
  | 7 => "Reporting Error Event"
  | 8 => "Attempting Rollback"
  | _ => "Unknown"

/-- Modelled from the spec: civil proleptic-Gregorian date (year, month,
day) of a day count since 1970-01-01, by the standard era decomposition of
the Gregorian 400-year cycle. -/
def civilFromDays (z0 : Nat) : Nat × Nat × Nat :=
  let z := z0 + 719468
  let era := z / 146097
  let doe := z % 146097
  let yoe := (doe - doe / 1460 + doe / 36524 - doe / 146097) / 365
  let doy := doe - (365 * yoe + yoe / 4 - yoe / 100)
  let mp := (5 * doy + 2) / 153
  let d := doy - (153 * mp + 2) / 5 + 1
  let m := if mp < 10 then mp + 3 else mp - 9
  let y := yoe + era * 400 + (if m ≤ 2 then 1 else 0)
  (y, m, d)

/-- Year (GMT) of a timestamp in seconds since the Unix epoch. -/
def timeYear (t : Nat) : Nat := (civilFromDays (t / 86400)).1

/-- Month (GMT, 1-12) of a timestamp in seconds since the Unix epoch. -/
def timeMonth (t : Nat) : Nat := (civilFromDays (t / 86400)).2.1

/-- Day of month (GMT) of a timestamp in seconds since the Unix epoch. -/
def timeDay (t : Nat) : Nat := (civilFromDays (t / 86400)).2.2

/-- Hour of day (GMT, 24-hour clock) of a timestamp. -/
def timeHour (t : Nat) : Nat := t % 86400 / 3600

/-- Minute of hour of a timestamp. -/
def timeMinute (t : Nat) : Nat := t % 3600 / 60

/-- Second of minute of a timestamp. -/
def timeSecond (t : Nat) : Nat := t % 60

/-- Two-digit zero-padded decimal rendering, used for minutes and seconds. -/
def pad2 (n : Nat) : String := if n < 10 then "0" ++ uintToString n else uintToString n

/-- Modelled from the spec: the absolute-timestamp formatter renders the
GMT date and time as `M/D/YYYY H:MM:SS GMT` — month, day and hour as bare
decimal numbers (no leading zero), minutes and seconds zero-padded to two
digits. -/
def timeToString (t : Nat) : String :=
  uintToString (timeMonth t) ++ "/" ++ uintToString (timeDay t) ++ "/" ++
    uintToString (timeYear t) ++ " " ++ uintToString (timeHour t) ++ ":" ++
    pad2 (timeMinute t) ++ ":" ++ pad2 (timeSecond t) ++ " GMT"

/-- Hours component of a duration given in seconds. -/
def durHours (s : Nat) : Nat := s / 3600

/-- Minutes-within-hour component of a duration given in seconds. -/
def durMinutes (s : Nat) : Nat := s % 3600 / 60

/-- Seconds-within-minute component of a duration given in seconds. -/
def durSeconds (s : Nat) : Nat := s % 60

/-- Modelled from the spec: the duration formatter decomposes a duration in
seconds into hours, minutes and seconds and renders it as `XhYmZs`. -/
def timeDeltaToString (s : Nat) : String :=
  uintToString (durHours s) ++ "h" ++ uintToString (durMinutes s) ++ "m" ++
    uintToString (durSeconds s) ++ "s"

/-- Modelled from the spec: ordered-set insertion as performed by the
key-ordered set container holding the enumerators — the element is placed
at its position in ascending ordinal order; inserting an element already
present changes nothing. -/
def setInsert (x : Nat) : List Nat → List Nat
  | [] => [x]
  | y :: ys =>
    if x < y then x :: y :: ys
    else if x = y then y :: ys
    else y :: setInsert x ys

/-- The ordered set built by inserting the elements of a list one by one,
mirroring repeated `insert` calls on an initially empty ordered set. -/
def setOfList (l : List Nat) : List Nat :=
  l.foldl (fun s x => setInsert x s) []

/-- Comma-join of a list of labels: no leading and no trailing separator. -/
def commaJoin : List String → String
  | [] => ""
  | [x] => x
  | x :: y :: ys => x ++ "," ++ commaJoin (y :: ys)

/-- Modelled from the spec: the set-of-ConnectionType formatter joins the
labels of the members with commas, in the container's ascending-ordinal
iteration order. -/
def setConnectionTypeToString (s : List Nat) : String :=
  commaJoin (s.map connectionTypeToString)

/-- The formatter the unit test registers for `DeleterMarker`: it renders
the current value of the external marker flag (the threaded state). -/
def deleterMarkerPrinter : Unit → Bool → String :=
  fun _ m => "DeleterMarker:" ++ (if m then "true" else "false")

/-- The destroyer of `DeleterMarker` as a state transformer on the marker
flag: destruction sets the flag. -/
def deleterMarkerDestroyer : Unit → Bool → Bool :=
  fun _ _ => true

/-- The destroyer used for boxed strings: freeing a string has no
observable side effect on the threaded state. -/
def stringDeleter {σ : Type} : String → σ → σ := fun _ s => s

/-- The formatter of a boxed string: the string itself. -/
def stringPrinter {σ : Type} : String → σ → String := fun v _ => v

/-- Modelled from the spec: the subscript operation of a map of boxes — a
present key yields its box, a missing key materializes a
default-constructed (empty) box, as `std::map::operator[]` does in the
`MixedMap` test. -/
def mapSubscript {α σ : Type} (m : List (Nat × BoxedValue α σ)) (k : Nat) :
    BoxedValue α σ :=
  match m.find? (fun kv => kv.1 == k) with
  | some kv => kv.2
  | none => BoxedValue.empty

lemma parseStep_digitChar (a : Nat) {k : Nat} (h : k < 10) :
    parseStep a (digitChar k) = 10 * a + k := by
  have : (digitChar k).toNat = 48 + k := by
    interval_cases k <;> rfl
  simp [parseStep, this]

lemma isDigit_digitChar {k : Nat} (h : k < 10) : (digitChar k).isDigit = true := by
  interval_cases k <;> rfl

lemma parse_toDecimalAux : ∀ (fuel n : Nat) (acc : List Char) (a : Nat),
    n < 10 ^ fuel →
    ∃ k, List.foldl parseStep a (toDecimalAux fuel n acc) =
      List.foldl parseStep (a * 10 ^ k + n) acc := by
  intro fuel
  induction fuel with
  | zero =>
    intro n acc a h
    refine ⟨0, ?_⟩
    have hn : n = 0 := by simpa using Nat.lt_one_iff.mp (by simpa using h)
    subst hn
    simp [toDecimalAux]
  | succ fuel ih =>
    intro n acc a h
    by_cases hn : n < 10
    · refine ⟨1, ?_⟩
      unfold toDecimalAux
      rw [if_pos hn, List.foldl_cons, parseStep_digitChar a hn]
      ring_nf
    · have h10 : n / 10 < 10 ^ fuel := by
        rw [Nat.div_lt_iff_lt_mul (by norm_num)]
        calc n < 10 ^ (fuel + 1) := h
          _ = 10 ^ fuel * 10 := by ring
      obtain ⟨k, hk⟩ := ih (n / 10) (digitChar (n % 10) :: acc) a h10
      refine ⟨k + 1, ?_⟩
      unfold toDecimalAux
      rw [if_neg hn, hk, List.foldl_cons,
        parseStep_digitChar _ (Nat.mod_lt n (by norm_num))]
      have : 10 * (a * 10 ^ k + n / 10) + n % 10 = a * 10 ^ (k + 1) + n := by
        have h2 : a * 10 ^ (k + 1) = 10 * (a * 10 ^ k) := by ring
        rw [h2]
        omega
      rw [this]

lemma digits_toDecimalAux : ∀ (fuel n : Nat) (acc : List Char),
    acc.all Char.isDigit = true → (toDecimalAux fuel n acc).all Char.isDigit = true := by
  intro fuel
  induction fuel with
  | zero => intro n acc h; simpa [toDecimalAux] using h
  | succ fuel ih =>
    intro n acc h
    unfold toDecimalAux
    by_cases hn : n < 10
    · rw [if_pos hn]
      simp [List.all_cons, isDigit_digitChar hn, h]
    · rw [if_neg hn]
      exact ih (n / 10) _ (by
        simp [List.all_cons, isDigit_digitChar (Nat.mod_lt n (by norm_num)), h])

lemma head_toDecimalAux : ∀ (fuel n : Nat) (acc : List Char), 0 < n →
    n < 10 ^ fuel → ∃ c l, toDecimalAux fuel n acc = c :: l ∧ c ≠ '0' := by
  intro fuel
  induction fuel with
  | zero =>
    intro n acc h h10
    simp only [pow_zero] at h10
    omega
  | succ fuel ih =>
    intro n acc h h10
    unfold toDecimalAux
    by_cases hn : n < 10
    · rw [if_pos hn]
      refine ⟨digitChar n, acc, rfl, ?_⟩
      interval_cases n <;> decide
    · rw [if_neg hn]
      apply ih
      · omega
      · rw [Nat.div_lt_iff_lt_mul (by norm_num)]
        calc n < 10 ^ (fuel + 1) := h10
          _ = 10 ^ fuel * 10 := by ring

lemma mem_setInsert (x : Nat) : ∀ (s : List Nat) (a : Nat),
    a ∈ setInsert x s ↔ a = x ∨ a ∈ s := by
  intro s
  induction s with
  | nil =>
    intro a
    simp [setInsert]
  | cons y ys ih =>
    intro a
    unfold setInsert
    by_cases h1 : x < y
    · rw [if_pos h1]
      simp [List.mem_cons]
    · rw [if_neg h1]
      by_cases h2 : x = y
      · subst h2
        rw [if_pos rfl]
        simp [List.mem_cons]
      · rw [if_neg h2]
        simp [List.mem_cons, ih a]
        tauto

lemma pairwise_setInsert (x : Nat) : ∀ {s : List Nat},
    List.Pairwise (· < ·) s → List.Pairwise (· < ·) (setInsert x s) := by
  intro s
  induction s with
  | nil =>
    intro _
    simp [setInsert]
  | cons y ys ih =>
    intro h
    rcases List.pairwise_cons.mp h with ⟨hy, hys⟩
    unfold setInsert
    by_cases h1 : x < y
    · rw [if_pos h1]
      refine List.pairwise_cons.mpr ⟨?_, h⟩
      intro z hz
      rcases List.mem_cons.mp hz with rfl | hz'
      · exact h1
      · exact Nat.lt_trans h1 (hy z hz')
    · rw [if_neg h1]
      by_cases h2 : x = y
      · rw [if_pos h2]
        exact h
      · rw [if_neg h2]
        have hyx : y < x := by omega
        refine List.pairwise_cons.mpr ⟨?_, ih hys⟩
        intro z hz
        rcases (mem_setInsert x ys z).mp hz with rfl | hz'
        · exact hyx
        · exact hy z hz'

lemma pairwise_foldl_setInsert : ∀ (l acc : List Nat),
    List.Pairwise (· < ·) acc →
    List.Pairwise (· < ·) (l.foldl (fun s x => setInsert x s) acc) := by
  intro l
  induction l with
  | nil =>
    intro acc h
    exact h
  | cons x xs ih =>
    intro acc h
    exact ih _ (pairwise_setInsert x h)

lemma mem_foldl_setInsert : ∀ (l acc : List Nat) (a : Nat),
    a ∈ l.foldl (fun s x => setInsert x s) acc ↔ a ∈ l ∨ a ∈ acc := by
  intro l
  induction l with
  | nil =>
    intro acc a
    simp
  | cons x xs ih =>
    intro acc a
    rw [List.foldl_cons, ih (setInsert x acc) a, mem_setInsert]
    simp [List.mem_cons]
    tauto

lemma pairwise_setOfList (l : List Nat) : List.Pairwise (· < ·) (setOfList l) :=
  pairwise_foldl_setInsert l [] List.Pairwise.nil

lemma mem_setOfList (l : List Nat) (a : Nat) : a ∈ setOfList l ↔ a ∈ l := by
  rw [setOfList, mem_foldl_setInsert]
  simp

lemma strictSorted_ext (l₁ l₂ : List Nat) (h₁ : List.Pairwise (· < ·) l₁)
    (h₂ : List.Pairwise (· < ·) l₂) (hm : ∀ a, a ∈ l₁ ↔ a ∈ l₂) : l₁ = l₂ := by
  haveI : IsAntisymm Nat (· < ·) := ⟨fun a b h h' => absurd h' (Nat.lt_asymm h)⟩
  have n₁ : l₁.Nodup := h₁.imp Nat.ne_of_lt
  have n₂ : l₂.Nodup := h₂.imp Nat.ne_of_lt
  exact List.eq_of_perm_of_sorted ((List.perm_ext_iff_of_nodup n₁ n₂).2 hm) h₁ h₂

/-- C1: constructing a box around a payload and destroying it runs the
destroyer on the payload exactly once and empties the box; with the
side-effect-counting destroyer the count is still 0 after construction (the
side effect does not occur before destruction) and exactly 1 after the box
is destroyed. -/
theorem spec_C1 (α σ : Type) (p : α) (d : α → σ → σ) (f : α → σ → String)
    (s : σ) (g : α → Nat → String) :
    (BoxedValue.box p d f).destroy s = (BoxedValue.empty, d p s) ∧
    singleDestructionTrace p countingDestroyer g = (0, 1) := by
  constructor
  · rfl
  · rfl

/-- C2: move-construction transfers payload, destroyer and formatter to the
destination and leaves the source empty; with the counting destroyer,
destroying the moved-from source produces no destruction side effect while
destroying the destination produces it exactly once; move-assignment into
an empty destination transfers the three fields the same way. -/
theorem spec_C2 (α σ : Type) (p : α) (d : α → σ → σ) (f : α → σ → String)
    (s : σ) (q : α) (g : α → Nat → String) :
    (BoxedValue.box p d f).moveConstruct = (BoxedValue.box p d f, BoxedValue.empty) ∧
    (((BoxedValue.box q countingDestroyer g).moveConstruct.2).destroy 0).2 = 0 ∧
    (((BoxedValue.box q countingDestroyer g).moveConstruct.1).destroy 0).2 = 1 ∧
    BoxedValue.moveAssign BoxedValue.empty (BoxedValue.box p d f) s =
      (BoxedValue.box p d f, BoxedValue.empty, s) := by
  refine ⟨rfl, rfl, rfl, rfl⟩

/-- C3: destroying a box that holds no payload is a no-op that changes
neither the box nor the state; in particular this holds for the empty
(default-constructed or moved-from) box, and destruction is idempotent —
a second destruction right after a first one changes nothing. -/
theorem spec_C3 (α σ : Type) :
    (∀ (b : BoxedValue α σ) (s : σ), b.payload = none → b.destroy s = (b, s)) ∧
    (∀ s : σ, (BoxedValue.empty : BoxedValue α σ).destroy s = (BoxedValue.empty, s)) ∧
    (∀ (b : BoxedValue α σ) (s : σ),
      (b.destroy s).1.destroy (b.destroy s).2 = ((b.destroy s).1, (b.destroy s).2)) := by
  refine ⟨?_, ?_, ?_⟩
  · intro b s h
    unfold BoxedValue.destroy
    rw [h]
  · intro s
    rfl
  · intro b s
    rcases b with ⟨pl, de, fo⟩
    rcases pl with _ | p
    · rfl
    · rcases de with _ | d
      · rfl
      · rfl

/-- Concrete instance of C3: destroying the empty box over `Nat` payloads
and `Nat` state at state 0 is a no-op. -/
theorem spec_C3_witness :
    (BoxedValue.empty : BoxedValue Nat Nat).destroy 0 = (BoxedValue.empty, 0) :=
  (spec_C3 Nat Nat).1 BoxedValue.empty 0 rfl

/-- C4: every known enumerator of the three registered enumeration
formatters maps to its fixed human-readable label, and every ordinal
outside the known set maps to the defined fallback label "Unknown" rather
than failing. -/
theorem spec_C4 :
    (connectionTypeToString ctEthernet = "Ethernet" ∧
     connectionTypeToString ctWifi = "Wifi" ∧
     connectionTypeToString ctWimax = "Wimax" ∧
     connectionTypeToString ctBluetooth = "Bluetooth" ∧
     connectionTypeToString ctCellular = "Cellular" ∧
     connectionTypeToString ctUnknown = "Unknown" ∧
     connectionTetheringToString 0 = "Not Detected" ∧
     connectionTetheringToString 1 = "Suspected" ∧
     connectionTetheringToString 2 = "Confirmed" ∧
     connectionTetheringToString 3 = "Unknown" ∧
     stageToString 0 = "Idle" ∧
     stageToString 1 = "Checking For Update" ∧
     stageToString 2 = "Update Available" ∧
     stageToString 3 = "Downloading" ∧
     stageToString 4 = "Verifying" ∧
     stageToString 5 = "Finalizing" ∧
     stageToString 6 = "Updated, Need Reboot" ∧
     stageToString 7 = "Reporting Error Event" ∧
     stageToString 8 = "Attempting Rollback") ∧
    (∀ n : Nat, 5 < n → connectionTypeToString n = "Unknown") ∧
    (∀ n : Nat, 3 < n → connectionTetheringToString n = "Unknown") ∧
    (∀ n : Nat, 8 < n → stageToString n = "Unknown") := by
  refine ⟨by decide, ?_, ?_, ?_⟩
  · intro n h
    rcases n with _ | _ | _ | _ | _ | _ | m
    · omega
    · omega
    · omega
    · omega
    · omega
    · omega
    · rfl
  · intro n h
    rcases n with _ | _ | _ | _ | m
    · omega
    · omega
    · omega
    · omega
    · rfl
  · intro n h
    rcases n with _ | _ | _ | _ | _ | _ | _ | _ | _ | m
    · omega
    · omega
    · omega
    · omega
    · omega
    · omega
    · omega
    · omega
    · omega
    · rfl

/-- Concrete instance of C4: ordinal 17 is outside the known set of each of
the three enumerations and formats to the fallback label "Unknown". -/
theorem spec_C4_witness :
    connectionTypeToString 17 = "Unknown" ∧
    connectionTetheringToString 17 = "Unknown" ∧
    stageToString 17 = "Unknown" :=
  ⟨spec_C4.2.1 17 (by decide), spec_C4.2.2.1 17 (by decide),
   spec_C4.2.2.2 17 (by decide)⟩

/-- C5: the unsigned-integer formatter produces exactly the decimal digits
of the value — parsing its output back yields the value for every `n`, so
there is no overflow or truncation anywhere in the unsigned 64-bit range —
and the output consists of digit characters only (no sign, no grouping);
in particular 42, the 32-bit maximum 4294967295 and the 64-bit maximum
18446744073709551615 format to their decimal digit strings. -/
theorem spec_C5 :
    uintToString 42 = "42" ∧
    uintToString 4294967295 = "4294967295" ∧
    uintToString 18446744073709551615 = "18446744073709551615" ∧
    (∀ n : Nat, parseDecimal (uintToString n) = n) ∧
    (∀ n : Nat, (uintToString n).data.all Char.isDigit = true) := by
  refine ⟨by decide, by decide, by decide, ?_, ?_⟩
  · intro n
    have hfuel : n < 10 ^ (n + 1) := by
      calc n < 10 ^ n := Nat.lt_pow_self (by norm_num) n
        _ ≤ 10 ^ (n + 1) := Nat.pow_le_pow_right (by norm_num) (Nat.le_succ n)
    obtain ⟨k, hk⟩ := parse_toDecimalAux (n + 1) n [] 0 hfuel
    simpa [parseDecimal, uintToString] using hk
  · intro n
    exact digits_toDecimalAux (n + 1) n [] rfl

/-- C6: the formatter of a set of connection types joins the member labels
with commas in ascending ordinal order, with no leading or trailing
separator: {kWimax, kEthernet} formats as "Ethernet,Wimax" whichever order
the two members were inserted in, the singleton {kWifi} formats as "Wifi",
the built set is always strictly ascending, and building a set from two
lists with the same members yields the same set, so the rendering is
independent of insertion order. -/
theorem spec_C6 :
    setConnectionTypeToString (setOfList [ctWimax, ctEthernet]) = "Ethernet,Wimax" ∧
    setConnectionTypeToString (setOfList [ctEthernet, ctWimax]) = "Ethernet,Wimax" ∧
    setConnectionTypeToString (setOfList [ctWifi]) = "Wifi" ∧
    (∀ l : List Nat, List.Pairwise (· < ·) (setOfList l)) ∧
    (∀ l₁ l₂ : List Nat, (∀ a, a ∈ l₁ ↔ a ∈ l₂) → setOfList l₁ = setOfList l₂) := by
  refine ⟨by decide, by decide, by decide, pairwise_setOfList, ?_⟩
  intro l₁ l₂ hm
  refine strictSorted_ext _ _ (pairwise_setOfList l₁) (pairwise_setOfList l₂) ?_
  intro a
  rw [mem_setOfList, mem_setOfList]
  exact hm a

/-- Concrete instance of C6: the sets built by inserting kWimax then
kEthernet and by inserting kEthernet then kWimax coincide. -/
theorem spec_C6_witness :
    setOfList [ctWimax, ctEthernet] = setOfList [ctEthernet, ctWimax] :=
  spec_C6.2.2.2.2 [ctWimax, ctEthernet] [ctEthernet, ctWimax] (by
    intro a
    simp [ctWimax, ctEthernet, List.mem_cons, or_comm])

/-- C7: the timestamp 1398810655 (Tue Apr 29 22:30:55 UTC 2014) formats as
"4/29/2014 22:30:55 GMT"; the time-of-day fields are a 24-hour clock
decomposition of the seconds within the day; and the bare decimal rendering
used for month, day and hour never carries a leading zero for a positive
value. -/
theorem spec_C7 :
    timeToString 1398810655 = "4/29/2014 22:30:55 GMT" ∧
    (∀ t : Nat, timeHour t < 24 ∧ timeMinute t < 60 ∧ timeSecond t < 60) ∧
    (∀ t : Nat, 3600 * timeHour t + 60 * timeMinute t + timeSecond t = t % 86400) ∧
    (∀ n : Nat, 0 < n → (uintToString n).data.head? ≠ some '0') := by
  refine ⟨by decide, ?_, ?_, ?_⟩
  · intro t
    unfold timeHour timeMinute timeSecond
    omega
  · intro t
    unfold timeHour timeMinute timeSecond
    omega
  · intro n hn
    have hfuel : n < 10 ^ (n + 1) := by
      calc n < 10 ^ n := Nat.lt_pow_self (by norm_num) n
        _ ≤ 10 ^ (n + 1) := Nat.pow_le_pow_right (by norm_num) (Nat.le_succ n)
    obtain ⟨c, l, hcl, hc⟩ := head_toDecimalAux (n + 1) n [] hn hfuel
    intro habs
    rw [uintToString] at habs
    simp only [String.data] at habs
    rw [hcl] at habs
    exact hc (by simpa using habs)

/-- Concrete instance of C7: the month field of the canonical test
timestamp is positive and its rendering does not start with '0'. -/
theorem spec_C7_witness :
    (uintToString (timeMonth 1398810655)).data.head? ≠ some '0' :=
  spec_C7.2.2.2 (timeMonth 1398810655) (by decide)

/-- C8: the duration formatter decomposes a duration into hours, minutes
and seconds — the three components recompose to the original duration and
the minute and second fields are below 60 — and 12345 seconds formats as
"3h25m45s". -/
theorem spec_C8 :
    timeDeltaToString 12345 = "3h25m45s" ∧
    (∀ s : Nat, 3600 * durHours s + 60 * durMinutes s + durSeconds s = s) ∧
    (∀ s : Nat, durMinutes s < 60 ∧ durSeconds s < 60) := by
  refine ⟨by decide, ?_, ?_⟩
  · intro s
    unfold durHours durMinutes durSeconds
    omega
  · intro s
    unfold durMinutes durSeconds
    omega

/-- C9: on a box holding a payload, `ToString` returns the string the
stored formatter produces from the stored payload and leaves the box — its
payload, destroyer and formatter — and the state untouched, and it can be
called any number of times: `n` consecutive calls all return that same
string and still leave the box and state untouched. -/
theorem spec_C9 (α σ : Type) (b : BoxedValue α σ) (p : α) (f : α → σ → String)
    (s : σ) (hp : b.payload = some p) (hf : b.formatter = some f) :
    b.toStringOp s = (some (f p s), b, s) ∧
    (∀ n : Nat, b.toStringN n s = (List.replicate n (f p s), b, s)) := by
  have hone : b.toStringOp s = (some (f p s), b, s) := by
    unfold BoxedValue.toStringOp
    rw [hp, hf]
  refine ⟨hone, ?_⟩
  intro n
  induction n with
  | zero => rfl
  | succ n ih =>
    unfold BoxedValue.toStringN
    rw [hone]
    simp only [ih]
    rfl

/-- Concrete instance of C9: the `DeleterMarkerToString` scenario — the
same live box formats to "DeleterMarker:false" while the marker is unset,
and to "DeleterMarker:true" after the marker is set externally, the box
surviving both calls unchanged; three consecutive calls return three equal
strings. -/
theorem spec_C9_witness :
    (BoxedValue.box () deleterMarkerDestroyer deleterMarkerPrinter).toStringOp false =
      (some "DeleterMarker:false",
       BoxedValue.box () deleterMarkerDestroyer deleterMarkerPrinter, false) ∧
    (BoxedValue.box () deleterMarkerDestroyer deleterMarkerPrinter).toStringOp true =
      (some "DeleterMarker:true",
       BoxedValue.box () deleterMarkerDestroyer deleterMarkerPrinter, true) ∧
    (BoxedValue.box () deleterMarkerDestroyer deleterMarkerPrinter).toStringN 3 false =
      (["DeleterMarker:false", "DeleterMarker:false", "DeleterMarker:false"],
       BoxedValue.box () deleterMarkerDestroyer deleterMarkerPrinter, false) := by
  refine ⟨?_, ?_, ?_⟩
  · exact (spec_C9 Unit Bool _ () deleterMarkerPrinter false rfl rfl).1
  · exact (spec_C9 Unit Bool _ () deleterMarkerPrinter true rfl rfl).1
  · exact (spec_C9 Unit Bool _ () deleterMarkerPrinter false rfl rfl).2 3

/-- C10: a default-constructed box is a valid empty box: its raw-payload
accessor `value` is null and destroying it is a safe no-op, while a box
constructed from an owned payload has a non-null `value`; in the `MixedMap`
scenario, subscripting the map at the present key 42 yields a box with
non-null `value` and subscripting at the missing key 33 materializes the
empty box, whose `value` is null. -/
theorem spec_C10 (α σ : Type) (p : α) (d : α → σ → σ) (f : α → σ → String)
    (s : σ) :
    (BoxedValue.empty : BoxedValue α σ).value = none ∧
    (BoxedValue.empty : BoxedValue α σ).destroy s = (BoxedValue.empty, s) ∧
    (BoxedValue.box p d f).value = some p ∧
    mapSubscript [(42, BoxedValue.box "Hola mundo!" stringDeleter stringPrinter)] 33 =
      (BoxedValue.empty : BoxedValue String σ) ∧
    (mapSubscript ([(42, BoxedValue.box "Hola mundo!" stringDeleter stringPrinter)] :
      List (Nat × BoxedValue String σ)) 42).value = some "Hola mundo!" := by
  refine ⟨rfl, rfl, rfl, rfl, rfl⟩
